import Mathlib

/-!
Verification of the DocAtlas structured logging facility
(`src/logger/setup.py`, `src/logger/formatter.py`) against its
natural-language specification.

The Python code is shallowly embedded: pure functions become Lean
functions, mutation of Python objects becomes explicit state passing
(each operation returns the possibly-raised exception together with the
post-call state of the object, since a Python method that raises midway
leaves its partial mutations behind), and raising becomes `Except`.
Machine integers are modelled as `Int`/`Nat` (Python integers are
unbounded, so no wrap-around is involved).
-/

set_option autoImplicit false

deriving instance DecidableEq for Except

namespace DocAtlas

/-- Embedding of `LogLevel(Enum)` from `src/logger/setup.py` lines 26-88:
the five-member severity enumeration DEBUG/INFO/WARNING/ERROR/CRITICAL. -/
inductive LogLevel where
  | debug
  | info
  | warning
  | error
  | critical
  deriving DecidableEq, Repr, Fintype

namespace LogLevel

/-- Python `list(LogLevel)`: members in declaration order. -/
def levels : List LogLevel := [debug, info, warning, error, critical]

/-- Python enum member name (`LogLevel.DEBUG.name == "DEBUG"`). -/
def memberName : LogLevel → String
  | debug => "DEBUG"
  | info => "INFO"
  | warning => "WARNING"
  | error => "ERROR"
  | critical => "CRITICAL"

/-- Python enum member value (`LogLevel.DEBUG.value == "debug"`),
the canonical lower-case level name. -/
def value : LogLevel → String
  | debug => "debug"
  | info => "info"
  | warning => "warning"
  | error => "error"
  | critical => "critical"

/-- Python `str.upper` on one ASCII character (level names are ASCII). -/
def pyUpperChar (c : Char) : Char :=
  if 'a' ≤ c ∧ c ≤ 'z' then Char.ofNat (c.toNat - 32) else c

/-- Python `str.upper` restricted to ASCII strings (all inputs the code
compares against are ASCII level names). -/
def pyUpper (s : String) : String := String.mk (s.data.map pyUpperChar)

/-- Embedding of `LogLevel.from_string` (setup.py lines 39-47):
empty input raises `ValueError`; otherwise the upper-cased string is
looked up among the member names, raising `ValueError` on a miss. -/
def from_string (level_str : String) : Except String LogLevel :=
  if level_str = "" then
    Except.error "Log level string cannot be None or empty."
  else
    let u := pyUpper level_str
    if u = "DEBUG" then Except.ok debug
    else if u = "INFO" then Except.ok info
    else if u = "WARNING" then Except.ok warning
    else if u = "ERROR" then Except.ok error
    else if u = "CRITICAL" then Except.ok critical
    else Except.error ("Invalid log level string: " ++ level_str)

/-- Embedding of `LogLevel.from_int` (setup.py lines 49-65): negative
codes raise `ValueError`; otherwise the code is looked up in the fixed
mapping 10/20/30/40/50, raising `ValueError` on a miss. -/
def from_int (level_int : Int) : Except String LogLevel :=
  if level_int < 0 then
    Except.error "Log level must be a positive value."
  else if level_int = 10 then Except.ok debug
  else if level_int = 20 then Except.ok info
  else if level_int = 30 then Except.ok warning
  else if level_int = 40 then Except.ok error
  else if level_int = 50 then Except.ok critical
  else Except.error "Invalid log level."

/-- Python `list(LogLevel).index(self)`: position of a member in
declaration order. -/
def index (l : LogLevel) : Nat := levels.indexOf l

/-- Embedding of `LogLevel.to_int` (setup.py lines 67-68):
`list(LogLevel).index(self) + 1`, i.e. the values 1..5
(NOT the 10..50 codes accepted by `from_int`). -/
def to_int (l : LogLevel) : Int := (index l : Int) + 1

/-- Embedding of `LogLevel.to_logging_level` (setup.py lines 70-78):
the fixed mapping onto the stdlib numeric codes 10/20/30/40/50. -/
def to_logging_level : LogLevel → Int
  | debug => 10
  | info => 20
  | warning => 30
  | error => 40
  | critical => 50

/-- Embedding of `LogLevel.next_level` (setup.py lines 80-83):
`levels[index + 1]` when `index < len(levels) - 1`, else `None`. -/
def next_level (l : LogLevel) : Option LogLevel :=
  if index l < levels.length - 1 then levels.get? (index l + 1) else none

/-- Embedding of `LogLevel.previous_level` (setup.py lines 85-88):
`levels[index - 1]` when `index > 0`, else `None`. -/
def previous_level (l : LogLevel) : Option LogLevel :=
  if index l > 0 then levels.get? (index l - 1) else none

end LogLevel

/-- Claim C3: for every severity x of the five-level model, converting
x to its canonical name and back via `from_string` yields x, and
converting x to its numeric code (the fixed 10..50 mapping of the
model, `to_logging_level`) and back via `from_int` yields x. -/
theorem c3_severity_roundtrip :
    ∀ x : LogLevel,
      LogLevel.from_string (LogLevel.value x) = Except.ok x ∧
      LogLevel.from_int (LogLevel.to_logging_level x) = Except.ok x := by
  intro x
  cases x <;> exact ⟨by decide, rfl⟩

/-- Claim C9: the numeric-code comparison induces the fixed total order
DEBUG < INFO < WARNING < ERROR < CRITICAL (it is strict-monotone in the
declaration order, total and irreflexive), and successor/predecessor
are well defined on the five-value domain: `next_level` of CRITICAL is
none, `previous_level` of DEBUG is none, and every other severity steps
to the adjacent level. -/
theorem c9_severity_order_and_succ_pred :
    (∀ a b : LogLevel,
        LogLevel.to_logging_level a < LogLevel.to_logging_level b ↔
          LogLevel.index a < LogLevel.index b) ∧
    (∀ a b : LogLevel,
        LogLevel.to_logging_level a < LogLevel.to_logging_level b ∨ a = b ∨
          LogLevel.to_logging_level b < LogLevel.to_logging_level a) ∧
    (LogLevel.to_logging_level LogLevel.debug < LogLevel.to_logging_level LogLevel.info ∧
     LogLevel.to_logging_level LogLevel.info < LogLevel.to_logging_level LogLevel.warning ∧
     LogLevel.to_logging_level LogLevel.warning < LogLevel.to_logging_level LogLevel.error ∧
     LogLevel.to_logging_level LogLevel.error < LogLevel.to_logging_level LogLevel.critical) ∧
    (LogLevel.next_level LogLevel.debug = some LogLevel.info ∧
     LogLevel.next_level LogLevel.info = some LogLevel.warning ∧
     LogLevel.next_level LogLevel.warning = some LogLevel.error ∧
     LogLevel.next_level LogLevel.error = some LogLevel.critical ∧
     LogLevel.next_level LogLevel.critical = none) ∧
    (LogLevel.previous_level LogLevel.debug = none ∧
     LogLevel.previous_level LogLevel.info = some LogLevel.debug ∧
     LogLevel.previous_level LogLevel.warning = some LogLevel.info ∧
     LogLevel.previous_level LogLevel.error = some LogLevel.warning ∧
     LogLevel.previous_level LogLevel.critical = some LogLevel.error) := by
  refine ⟨?_, ?_, ?_, ?_, ?_⟩ <;> decide

/-- A log-level argument of Python type `Union[LogLevel, str, int]`
(the union accepted by `_validate_log_level`). -/
inductive PyLevel where
  | lvl (l : LogLevel)
  | str (s : String)
  | int (n : Int)
  deriving DecidableEq, Repr

/-- Embedding of `LoggerManager._validate_log_level` (setup.py lines
201-213): a `LogLevel` is returned unchanged, a string goes through
`from_string`, an integer through `from_int`.  (The final `ValueError`
branch for other types is unreachable over the typed union.) -/
def validate_log_level : PyLevel → Except String LogLevel
  | PyLevel.lvl l => Except.ok l
  | PyLevel.str s => LogLevel.from_string s
  | PyLevel.int n => LogLevel.from_int n

/-- A log record as it travels through the dispatch queue: numeric
severity code, rendered message and the exception flag.  (Fields of
the Python `LogRecord` that do not influence routing — source
location, timestamps, extra attributes — are carried separately by the
formatter model below.) -/
structure LogEvent where
  levelno : Int
  msg : String
  exc_info : Bool
  deriving DecidableEq, Repr

/-- The three kinds of `logging` handler objects constructed by
`LoggerManager._setup_handlers` (setup.py lines 215-247). -/
inductive HandlerKind where
  | queueHandler
  | streamHandler
  | rotatingFileHandler
  deriving DecidableEq, Repr

/-- A `logging.Handler` object: its class and its configured level. -/
structure Handler where
  kind : HandlerKind
  level : Int
  deriving DecidableEq, Repr

/-- Python `isinstance(h, logging.StreamHandler)`.  Note that
`RotatingFileHandler` subclasses `FileHandler`, which subclasses
`StreamHandler`, so it also satisfies this test. -/
def Handler.isStreamHandler (h : Handler) : Bool :=
  match h.kind with
  | HandlerKind.queueHandler => false
  | HandlerKind.streamHandler => true
  | HandlerKind.rotatingFileHandler => true

/-- Python `isinstance(h, RotatingFileHandler)`. -/
def Handler.isRotatingFileHandler (h : Handler) : Bool :=
  match h.kind with
  | HandlerKind.rotatingFileHandler => true
  | _ => false

/-- The `logging.Logger` object owned by a `LoggerManager` after
`setup_logger`: its effective level and its attached handlers. -/
structure LoggerObj where
  level : Int
  handlers : List Handler
  deriving DecidableEq, Repr

/-- The `QueueListener` constructed in `_setup_handlers` (setup.py
lines 245-247): it owns the console `StreamHandler` and the file
`RotatingFileHandler` (these two handlers are reachable only through
the listener — they are never attached to the logger), and is created
with `respect_handler_level=True`, so it compares each record's level
against each handler's threshold before delivering. -/
structure Listener where
  consoleLevel : Int
  fileLevel : Int
  deriving DecidableEq, Repr

/-- Constructor arguments of `LoggerManager.__init__` (setup.py lines
145-167) that the claims exercise.  The Python defaults are
`max_file_size=500*1024*1024`, `backup_count=3`,
`console_level=LogLevel.INFO`, `file_level=LogLevel.DEBUG`.  Path and
format-string arguments are carried opaquely and never validated by
the source, so they are omitted here. -/
structure ManagerConfig where
  module_name : String
  max_file_size : Int
  backup_count : Int
  console_level : PyLevel
  file_level : PyLevel
  deriving DecidableEq, Repr

/-- The state of one `LoggerManager` object together with the runtime
state of its dispatch pipeline: `queue` is the content of the
`queue.Queue(-1)` buffer, and `consoleOut` / `fileOut` are the
sequences of records written so far to the console and file sinks (the
I/O performed by the pipeline). -/
structure LoggerManager where
  name : String
  console_level : LogLevel
  file_level : LogLevel
  max_size : Int
  backup_count : Int
  logger : Option LoggerObj
  listener : Option Listener
  queue : List LogEvent
  consoleOut : List LogEvent
  fileOut : List LogEvent
  deriving DecidableEq, Repr

namespace LoggerManager

/-- Embedding of `LoggerManager.__init__` (setup.py lines 145-167):
`max_file_size <= 0` raises `ValueError`; `backup_count` is stored
without any validation; the two levels are validated and converted.
The class attributes `logger = None` and `listener = None` give a
fresh, un-setup handle. -/
def init (cfg : ManagerConfig) : Except String LoggerManager :=
  if cfg.max_file_size ≤ 0 then
    Except.error "max_file_size must be a positive integer."
  else
    match validate_log_level cfg.console_level with
    | Except.error e => Except.error e
    | Except.ok cl =>
      match validate_log_level cfg.file_level with
      | Except.error e => Except.error e
      | Except.ok fl =>
        Except.ok
          { name := cfg.module_name
            console_level := cl
            file_level := fl
            max_size := cfg.max_file_size
            backup_count := cfg.backup_count
            logger := none
            listener := none
            queue := []
            consoleOut := []
            fileOut := [] }

/-- The logger object produced by `setup_logger`: level set to
`logging.DEBUG` (10), and — per `_setup_handlers` lines 237-243 — the
*only* handler attached to the logger is the `QueueHandler` (created
with no explicit level, hence level `NOTSET` = 0).  The console and
file handlers are given to the `QueueListener` instead. -/
def setupLoggerObj : LoggerObj :=
  { level := 10, handlers := [{ kind := HandlerKind.queueHandler, level := 0 }] }

/-- Embedding of `LoggerManager.setup_logger` + `_setup_handlers` +
`_start_listener` (setup.py lines 169-258): if a logger exists and
`force` is false, the call is a no-op; otherwise the logger is
(re)initialized with only the queue handler attached, a fresh empty
queue is created, and the listener holding the console handler (at
`console_level`) and the file handler (at `file_level`) is started.
Directory creation and the `atexit` registration are process I/O with
no effect on the state modelled here. -/
def setup_logger (m : LoggerManager) (force : Bool) : LoggerManager :=
  if m.logger.isSome && !force then m
  else
    { m with
      logger := some setupLoggerObj
      listener := some
        { consoleLevel := m.console_level.to_logging_level
          fileLevel := m.file_level.to_logging_level }
      queue := [] }

/-- The loop body of `update_levels` (setup.py lines 274-278): for
each handler attached to the logger, `isinstance(h, StreamHandler)`
sets the console level, `elif isinstance(h, RotatingFileHandler)` sets
the file level.  (Because `RotatingFileHandler` is itself a
`StreamHandler`, the `elif` branch is unreachable in Python; the
embedding reproduces that.  With the wiring of `_setup_handlers` the
only attached handler is the queue handler, which matches neither.) -/
def set_handler_levels (lg : LoggerObj) (cl fl : Int) : LoggerObj :=
  { lg with
    handlers := lg.handlers.map (fun h =>
      if h.isStreamHandler then { h with level := cl }
      else if h.isRotatingFileHandler then { h with level := fl }
      else h) }

/-- Embedding of `LoggerManager.update_levels` (setup.py lines
260-278).  The returned pair is (raised exception or unit, post-call
object state): Python mutates `self.console_level` *before* validating
`file_level`, so a failure on the second argument leaves the first
assignment behind. -/
def update_levels (m : LoggerManager) (console_level file_level : PyLevel) :
    Except String Unit × LoggerManager :=
  match m.logger with
  | none => (Except.error "Logger has not been initialized.", m)
  | some lg =>
    match validate_log_level console_level with
    | Except.error e => (Except.error e, m)
    | Except.ok cl =>
      let m1 := { m with console_level := cl }
      match validate_log_level file_level with
      | Except.error e => (Except.error e, m1)
      | Except.ok fl =>
        let m2 := { m1 with file_level := fl }
        (Except.ok (),
         { m2 with
           logger := some
             (set_handler_levels lg cl.to_logging_level fl.to_logging_level) })

/-- `Handler.handle` on a record: a queue handler enqueues (the I/O-free
producer path), a stream handler writes the console, a rotating file
handler writes the file. -/
def handler_emit (m : LoggerManager) (h : Handler) (e : LogEvent) : LoggerManager :=
  match h.kind with
  | HandlerKind.queueHandler => { m with queue := m.queue ++ [e] }
  | HandlerKind.streamHandler => { m with consoleOut := m.consoleOut ++ [e] }
  | HandlerKind.rotatingFileHandler => { m with fileOut := m.fileOut ++ [e] }

/-- `Logger.callHandlers`: each attached handler whose level does not
exceed the record's level handles the record. -/
def call_handlers (m : LoggerManager) (hs : List Handler) (e : LogEvent) : LoggerManager :=
  hs.foldl (fun acc h => if h.level ≤ e.levelno then handler_emit acc h e else acc) m

/-- Embedding of `LoggerManager.log_message` (setup.py lines 290-334):
raises `RuntimeError` if the logger was never set up; a `None` level
defaults to `LogLevel.INFO`; the level is validated; if the logger is
enabled for the level (its effective level is `DEBUG` after setup, so
it always is), the record is dispatched through the logger's attached
handlers. -/
def log_message (m : LoggerManager) (message : String) (level : Option PyLevel)
    (exc_info : Bool) : Except String Unit × LoggerManager :=
  match m.logger with
  | none => (Except.error "Logger has not been initialized.", m)
  | some lg =>
    let lvlArg := level.getD (PyLevel.lvl LogLevel.info)
    match validate_log_level lvlArg with
    | Except.error e => (Except.error e, m)
    | Except.ok l =>
      if lg.level ≤ l.to_logging_level then
        (Except.ok (),
         call_handlers m lg.handlers
           { levelno := l.to_logging_level, msg := message, exc_info := exc_info })
      else
        (Except.ok (), m)

/-- The `QueueListener._monitor` loop (with `respect_handler_level=True`):
pop records off the queue in FIFO order and hand each to the console
and file handlers whose threshold it meets.  `li` carries the two
handler thresholds, `q` the remaining queue, `co`/`fo` the output
written so far. -/
def listener_deliver (li : Listener) :
    List LogEvent → List LogEvent → List LogEvent → List LogEvent × List LogEvent
  | [], co, fo => (co, fo)
  | e :: rest, co, fo =>
    listener_deliver li rest
      (if li.consoleLevel ≤ e.levelno then co ++ [e] else co)
      (if li.fileLevel ≤ e.levelno then fo ++ [e] else fo)

/-- The background consumer thread running until the queue is empty:
the single `QueueListener` thread performs all sink I/O. -/
def drain (m : LoggerManager) : LoggerManager :=
  match m.listener with
  | none => m
  | some li =>
    let (co, fo) := listener_deliver li m.queue m.consoleOut m.fileOut
    { m with queue := [], consoleOut := co, fileOut := fo }

end LoggerManager

/-- Every manager produced by `__init__` starts un-setup: no logger, no
listener, empty pipeline. -/
theorem init_shape (cfg : ManagerConfig) (m0 : LoggerManager)
    (h : LoggerManager.init cfg = Except.ok m0) :
    m0.logger = none ∧ m0.listener = none ∧ m0.queue = [] ∧
      m0.consoleOut = [] ∧ m0.fileOut = [] := by
  unfold LoggerManager.init at h
  split at h
  · simp at h
  · split at h
    · simp at h
    · split at h
      · simp at h
      · cases h
        exact ⟨rfl, rfl, rfl, rfl, rfl⟩

/-- `setup_logger` on a fresh (never set-up) manager installs the
queue-only logger, the two-sink listener and an empty queue. -/
theorem setup_logger_fresh (m0 : LoggerManager) (force : Bool) (h : m0.logger = none) :
    m0.setup_logger force =
      { m0 with
        logger := some LoggerManager.setupLoggerObj
        listener := some
          { consoleLevel := m0.console_level.to_logging_level
            fileLevel := m0.file_level.to_logging_level }
        queue := [] } := by
  simp [LoggerManager.setup_logger, h]

/-- A concrete `LoggerManager.__init__` call with the documented
default arguments. -/
def manager0Cfg : ManagerConfig :=
  { module_name := "app"
    max_file_size := 524288000
    backup_count := 3
    console_level := PyLevel.lvl LogLevel.info
    file_level := PyLevel.lvl LogLevel.debug }

/-- The manager object `LoggerManager.init manager0Cfg` returns (see
`manager0_from_init`): a configured but never set-up handle. -/
def manager0 : LoggerManager :=
  { name := "app"
    console_level := LogLevel.info
    file_level := LogLevel.debug
    max_size := 524288000
    backup_count := 3
    logger := none
    listener := none
    queue := []
    consoleOut := []
    fileOut := [] }

theorem manager0_from_init : LoggerManager.init manager0Cfg = Except.ok manager0 := rfl

/-- The handle after `setup_logger(force=False)`: the pipeline is live. -/
def runningManager : LoggerManager := manager0.setup_logger false

/-- Claim C1: on a configured handle, `log_message` only appends the
event to the thread-safe FIFO — the console and file sinks are
untouched by the calling thread, because `_setup_handlers` attaches
only the `QueueHandler` to the logger — and the background consumer
(the `QueueListener`, sole owner of the console and file handlers)
dequeues in FIFO order, delivering to each sink the threshold-filtered
subsequence in enqueue order. -/
theorem c1_producer_only_enqueues_consumer_fifo
    (cfg : ManagerConfig) (m0 m : LoggerManager) (force : Bool)
    (hinit : LoggerManager.init cfg = Except.ok m0)
    (hm : m = m0.setup_logger force)
    (message : String) (l : LogLevel) (exc : Bool)
    (li : Listener) (q co fo : List LogEvent) :
    m.logger = some LoggerManager.setupLoggerObj ∧
    m.log_message message (some (PyLevel.lvl l)) exc =
      (Except.ok (),
       { m with
         queue := m.queue ++
           [{ levelno := l.to_logging_level, msg := message, exc_info := exc }] }) ∧
    LoggerManager.listener_deliver li q co fo =
      (co ++ q.filter (fun e => li.consoleLevel ≤ e.levelno),
       fo ++ q.filter (fun e => li.fileLevel ≤ e.levelno)) := by
  have hl : m0.logger = none := (init_shape cfg m0 hinit).1
  rw [setup_logger_fresh m0 force hl] at hm
  subst hm
  refine ⟨rfl, ?_, ?_⟩
  · cases l <;> rfl
  · induction q generalizing co fo with
    | nil => simp [LoggerManager.listener_deliver]
    | cons e rest ih =>
      rw [LoggerManager.listener_deliver, ih]
      by_cases hc : li.consoleLevel ≤ e.levelno <;>
        by_cases hf : li.fileLevel ≤ e.levelno <;>
          simp [List.filter_cons, hc, hf]

/-- Witness for C1 at a concrete configuration, event and queue. -/
theorem c1_witness :
    runningManager.logger = some LoggerManager.setupLoggerObj ∧
    runningManager.log_message "boot" (some (PyLevel.lvl LogLevel.info)) false =
      (Except.ok (),
       { runningManager with
         queue := runningManager.queue ++
           [{ levelno := 20, msg := "boot", exc_info := false }] }) ∧
    LoggerManager.listener_deliver { consoleLevel := 20, fileLevel := 10 }
      [{ levelno := 20, msg := "boot", exc_info := false },
       { levelno := 10, msg := "detail", exc_info := false }] [] [] =
      ([{ levelno := 20, msg := "boot", exc_info := false }],
       [{ levelno := 20, msg := "boot", exc_info := false },
        { levelno := 10, msg := "detail", exc_info := false }]) := by
  have h := c1_producer_only_enqueues_consumer_fifo manager0Cfg manager0 runningManager
    false manager0_from_init rfl "boot" LogLevel.info false
    { consoleLevel := 20, fileLevel := 10 }
    [{ levelno := 20, msg := "boot", exc_info := false },
     { levelno := 10, msg := "detail", exc_info := false }] [] []
  exact ⟨h.1, h.2.1, by rw [h.2.2]; rfl⟩

/-- Counterexample for C6: on a live handle with console threshold
INFO and file threshold DEBUG, `update_levels("error", "bogus")`
raises (the second argument is an invalid level name) and yet the
console threshold has been changed to ERROR, while the file threshold
kept its old value — the update is not atomic. -/
theorem c6_update_levels_not_atomic_counterexample :
    runningManager.console_level = LogLevel.info ∧
    runningManager.file_level = LogLevel.debug ∧
    (runningManager.update_levels (PyLevel.str "error") (PyLevel.str "bogus")).1 =
      Except.error "Invalid log level string: bogus" ∧
    (runningManager.update_levels (PyLevel.str "error") (PyLevel.str "bogus")).2.console_level =
      LogLevel.error ∧
    (runningManager.update_levels (PyLevel.str "error") (PyLevel.str "bogus")).2.file_level =
      LogLevel.debug := by
  refine ⟨rfl, rfl, ?_, ?_, ?_⟩ <;> decide

/-- Claim C6 as amended: `update_levels` validates its two arguments
in sequence and assigns as it goes.  If the console level is invalid
(or the handle was never set up) nothing is changed, but if the
console level is valid and the file level invalid, the call raises
with the console threshold already updated and the file threshold
unchanged: the update is sequential, not atomic. -/
theorem c6_update_levels_sequential
    (m : LoggerManager) (lg : LoggerObj) (hl : m.logger = some lg) (cl fl : PyLevel) :
    (∀ e, validate_log_level cl = Except.error e →
        m.update_levels cl fl = (Except.error e, m)) ∧
    (∀ c e, validate_log_level cl = Except.ok c →
        validate_log_level fl = Except.error e →
        m.update_levels cl fl = (Except.error e, { m with console_level := c })) := by
  constructor
  · intro e he
    simp [LoggerManager.update_levels, hl, he]
  · intro c e hc he
    simp [LoggerManager.update_levels, hl, hc, he]

/-- Witness for C6 (amended) at the concrete failing call. -/
theorem c6_witness :
    runningManager.update_levels (PyLevel.str "error") (PyLevel.str "bogus") =
      (Except.error "Invalid log level string: bogus",
       { runningManager with console_level := LogLevel.error }) :=
  (c6_update_levels_sequential runningManager LoggerManager.setupLoggerObj rfl
      (PyLevel.str "error") (PyLevel.str "bogus")).2
    LogLevel.error "Invalid log level string: bogus" (by decide) (by decide)

/-- Claim C7: on a handle on which `setup_logger` has never run
(`self.logger is None`), both `log_message` and `update_levels` raise
`RuntimeError("Logger has not been initialized.")` and leave the
handle — thresholds, queue and sink outputs — completely unchanged:
no message is silently dropped into the pipeline and no threshold is
partially applied. -/
theorem c7_uninitialized_operations_fail
    (m : LoggerManager) (h : m.logger = none)
    (message : String) (level : Option PyLevel) (exc : Bool) (cl fl : PyLevel) :
    m.log_message message level exc =
      (Except.error "Logger has not been initialized.", m) ∧
    m.update_levels cl fl =
      (Except.error "Logger has not been initialized.", m) := by
  constructor
  · simp [LoggerManager.log_message, h]
  · simp [LoggerManager.update_levels, h]

/-- Witness for C7 on a freshly constructed manager. -/
theorem c7_witness :
    manager0.log_message "hello" none false =
      (Except.error "Logger has not been initialized.", manager0) ∧
    manager0.update_levels (PyLevel.lvl LogLevel.error) (PyLevel.lvl LogLevel.warning) =
      (Except.error "Logger has not been initialized.", manager0) :=
  c7_uninitialized_operations_fail manager0 rfl "hello" none false
    (PyLevel.lvl LogLevel.error) (PyLevel.lvl LogLevel.warning)

/-- A Python value as it can appear inside a logging `extra`/context
mapping: the JSON-serializable primitives and containers, plus `vobj`
for an arbitrary object that `json.dumps` cannot serialize (carrying
its type name for the error message). -/
inductive PyVal where
  | vstr (s : String)
  | vint (n : Int)
  | vbool (b : Bool)
  | vnone
  | vlist (xs : List PyVal)
  | vdict (entries : List (String × PyVal))
  | vobj (typeName : String)

/-- A Python `dict[str, Any]` with its insertion order: the entry list
of the dict.  A dict never holds two entries with the same key. -/
abbrev PyDict := List (String × PyVal)

/-- The keys of a dict, in insertion order. -/
def dictKeys (d : PyDict) : List String := d.map Prod.fst

/-- Python `d[k]` / `d.get(k)` as an `Option`. -/
def dictGet : PyDict → String → Option PyVal
  | [], _ => none
  | (k', v') :: rest, k => if k' = k then some v' else dictGet rest k

/-- Python `d[k] = v`: overwrite in place if the key exists (keeping
its position), else append a new entry. -/
def dictSet : PyDict → String → PyVal → PyDict
  | [], k, v => [(k, v)]
  | (k', v') :: rest, k, v =>
    if k' = k then (k, v) :: rest else (k', v') :: dictSet rest k v

/-- Python `\x7b**a, **b\x7d` (equally, `c = dict(a); c.update(b)`):
a new dict holding a's entries updated, in order, with b's.  Neither
input is modified. -/
def dictMerge (a b : PyDict) : PyDict :=
  b.foldl (fun acc p => dictSet acc p.1 p.2) a

/-- Embedding of `InstanceAdapter.process` (setup.py lines 104-118):
`kwargs.setdefault("extra", \x7b\x7d)` defaults a missing per-call
mapping to the empty dict, and the adapter's sticky context is merged
with it by dict unpacking, the per-call keys winning.  The merged dict
is a fresh object stored back into `kwargs`; the branch raising
`ValueError` for a non-mapping `extra` is unrepresentable over the
typed embedding. -/
def InstanceAdapter.process (ctx : PyDict) (msg : String) (kwExtra : Option PyDict) :
    String × PyDict :=
  let extra := kwExtra.getD []
  (msg, dictMerge ctx extra)

theorem dictGet_dictSet_self (d : PyDict) (k : String) (v : PyVal) :
    dictGet (dictSet d k v) k = some v := by
  induction d with
  | nil => simp [dictSet, dictGet]
  | cons p rest ih =>
    obtain ⟨k', v'⟩ := p
    by_cases h : k' = k
    · simp [dictSet, dictGet, h]
    · simp [dictSet, dictGet, h, ih]

theorem dictGet_dictSet_ne (d : PyDict) (k k' : String) (v : PyVal) (h : k ≠ k') :
    dictGet (dictSet d k v) k' = dictGet d k' := by
  induction d with
  | nil => simp [dictSet, dictGet, h]
  | cons p rest ih =>
    obtain ⟨k0, v0⟩ := p
    by_cases h0 : k0 = k
    · subst h0
      simp [dictSet, dictGet, h]
    · simp [dictSet, dictGet, h0, ih]

theorem dictGet_dictMerge_not_mem (a b : PyDict) (k : String)
    (h : k ∉ dictKeys b) :
    dictGet (dictMerge a b) k = dictGet a k := by
  induction b generalizing a with
  | nil => simp [dictMerge]
  | cons p rest ih =>
    obtain ⟨k', v'⟩ := p
    simp only [dictKeys, List.map_cons, List.mem_cons] at h
    push_neg at h
    have hstep : dictMerge a ((k', v') :: rest) = dictMerge (dictSet a k' v') rest := rfl
    rw [hstep, ih (dictSet a k' v') (by simpa [dictKeys] using h.2),
        dictGet_dictSet_ne a k' k v' (fun hk => h.1 hk.symm)]

theorem dictGet_dictMerge_mem (a b : PyDict) (k : String)
    (hmem : k ∈ dictKeys b) (hnd : (dictKeys b).Nodup) :
    dictGet (dictMerge a b) k = dictGet b k := by
  induction b generalizing a with
  | nil => simp [dictKeys] at hmem
  | cons p rest ih =>
    obtain ⟨k', v'⟩ := p
    have hstep : dictMerge a ((k', v') :: rest) = dictMerge (dictSet a k' v') rest := rfl
    simp only [dictKeys, List.map_cons, List.nodup_cons] at hnd
    by_cases h : k' = k
    · subst h
      have hnot : k' ∉ dictKeys rest := by simpa [dictKeys] using hnd.1
      rw [hstep, dictGet_dictMerge_not_mem (dictSet a k' v') rest k' hnot,
          dictGet_dictSet_self]
      simp [dictGet]
    · have hk : k ∈ dictKeys rest := by
        simp only [dictKeys, List.map_cons, List.mem_cons] at hmem
        tauto
      rw [hstep, ih (dictSet a k' v') hk hnd.2]
      simp [dictGet, h]

/-- Claim C8: the merge performed at emission time by
`InstanceAdapter.process` builds a new combined mapping in which the
per-call `extra` keys take precedence over the sticky context keys on
collision and the sticky keys survive otherwise.  The embedding is
pure — mirroring that the Python code builds a fresh dict by unpacking
and leaves both `self.extra` and the caller's `extra` object
untouched. -/
theorem c8_process_merge_precedence
    (ctx extra : PyDict) (msg : String) (k : String)
    (hnd : (dictKeys extra).Nodup) :
    (InstanceAdapter.process ctx msg (some extra)).1 = msg ∧
    (k ∈ dictKeys extra →
      dictGet (InstanceAdapter.process ctx msg (some extra)).2 k = dictGet extra k) ∧
    (k ∉ dictKeys extra →
      dictGet (InstanceAdapter.process ctx msg (some extra)).2 k = dictGet ctx k) := by
  refine ⟨rfl, ?_, ?_⟩
  · intro hmem
    exact dictGet_dictMerge_mem ctx extra k hmem hnd
  · intro hmem
    exact dictGet_dictMerge_not_mem ctx extra k hmem

/-- Witness for C8: a sticky context and a per-call extra that collide
on "doc" and differ elsewhere. -/
theorem c8_witness :
    ((InstanceAdapter.process
        [("doc", PyVal.vstr "ctx"), ("user", PyVal.vstr "u")] "msg"
        (some [("doc", PyVal.vstr "call"), ("page", PyVal.vint 3)])).1 = "msg" ∧
      ("doc" ∈ dictKeys [("doc", PyVal.vstr "call"), ("page", PyVal.vint 3)] →
        dictGet (InstanceAdapter.process
            [("doc", PyVal.vstr "ctx"), ("user", PyVal.vstr "u")] "msg"
            (some [("doc", PyVal.vstr "call"), ("page", PyVal.vint 3)])).2 "doc" =
          dictGet [("doc", PyVal.vstr "call"), ("page", PyVal.vint 3)] "doc") ∧
      ("doc" ∉ dictKeys [("doc", PyVal.vstr "call"), ("page", PyVal.vint 3)] →
        dictGet (InstanceAdapter.process
            [("doc", PyVal.vstr "ctx"), ("user", PyVal.vstr "u")] "msg"
            (some [("doc", PyVal.vstr "call"), ("page", PyVal.vint 3)])).2 "doc" =
          dictGet [("doc", PyVal.vstr "ctx"), ("user", PyVal.vstr "u")] "doc")) :=
  c8_process_merge_precedence
    [("doc", PyVal.vstr "ctx"), ("user", PyVal.vstr "u")]
    [("doc", PyVal.vstr "call"), ("page", PyVal.vint 3)]
    "msg" "doc" (by decide)

/-- Escaping applied by `json.dumps` inside string values (the cases
relevant to this code: quote, backslash, newline). -/
def jsonEscape (s : String) : String :=
  s.data.foldl
    (fun acc c =>
      if c = '"' then acc ++ "\\\""
      else if c = '\\' then acc ++ "\\\\"
      else if c = '\n' then acc ++ "\\n"
      else acc.push c) ""

/-- A serialized JSON string literal. -/
def jsonStr (s : String) : String := "\"" ++ jsonEscape s ++ "\""

mutual

/-- Embedding of `json.dumps(_, ensure_ascii=False)` on a Python
value: primitives and containers serialize structurally; a `vobj`
raises `TypeError`, which `Except.error` models (the message is the
one CPython produces). -/
def json_dumps : PyVal → Except String String
  | PyVal.vstr s => Except.ok (jsonStr s)
  | PyVal.vint n => Except.ok (toString n)
  | PyVal.vbool b => Except.ok (if b then "true" else "false")
  | PyVal.vnone => Except.ok "null"
  | PyVal.vlist xs =>
    match json_dumps_list xs with
    | Except.error e => Except.error e
    | Except.ok parts => Except.ok ("[" ++ String.intercalate ", " parts ++ "]")
  | PyVal.vdict es =>
    match json_dumps_entries es with
    | Except.error e => Except.error e
    | Except.ok parts =>
      Except.ok ("\x7b" ++ String.intercalate ", " parts ++ "\x7d")
  | PyVal.vobj t =>
    Except.error ("Object of type " ++ t ++ " is not JSON serializable")

def json_dumps_list : List PyVal → Except String (List String)
  | [] => Except.ok []
  | x :: xs =>
    match json_dumps x with
    | Except.error e => Except.error e
    | Except.ok s =>
      match json_dumps_list xs with
      | Except.error e => Except.error e
      | Except.ok rest => Except.ok (s :: rest)

def json_dumps_entries : List (String × PyVal) → Except String (List String)
  | [] => Except.ok []
  | (k, v) :: xs =>
    match json_dumps v with
    | Except.error e => Except.error e
    | Except.ok s =>
      match json_dumps_entries xs with
      | Except.error e => Except.error e
      | Except.ok rest => Except.ok ((jsonStr k ++ ": " ++ s) :: rest)

end

/-- `ENVIRONMENT = os.environ.get('ENV', "DEV")` from formatter.py
line 12, at its default. -/
def ENVIRONMENT : String := "DEV"

/-- A `logging.LogRecord` as seen by `NDJsonFormatter`.  `message` is
the rendered message (the `%`-placeholder pass at the top of
`format()` rewrites `record.msg` to a plain string before the record
dict is built, so only its string value matters here); `asctime` is
the `formatTime` output for the record's creation instant (stdlib
date formatting); `excText` is the `formatException` rendering of
`record.exc_info` when exception info was captured, `none` otherwise;
`extra` is the record's `extra` attribute when the record carries one
holding a dict. -/
structure LogRecord where
  levelname : String
  message : String
  moduleName : String
  funcName : String
  lineno : Int
  pathname : String
  asctime : String
  excText : Option String
  extra : Option PyDict

/-- Embedding of `NDJsonFormatter._create_log_record` (formatter.py
lines 42-65): the fixed eight-field payload, then — only when
`record.levelname in ['ERROR', 'EXCEPTION']` and exception info is
present — a `stack_trace` entry, then the `extra` dict splatted in
via `dict.update`. -/
def create_log_record (r : LogRecord) : PyDict :=
  let base : PyDict :=
    [("ts", PyVal.vstr r.asctime),
     ("lvl", PyVal.vstr r.levelname),
     ("msg", PyVal.vstr r.message),
     ("mod", PyVal.vstr r.moduleName),
     ("fn_name", PyVal.vstr r.funcName),
     ("line_no", PyVal.vint r.lineno),
     ("path_name", PyVal.vstr r.pathname),
     ("env", PyVal.vstr ENVIRONMENT)]
  let withStack : PyDict :=
    match r.excText with
    | some tb =>
      if r.levelname = "ERROR" ∨ r.levelname = "EXCEPTION" then
        base ++ [("stack_trace", PyVal.vstr tb)]
      else base
    | none => base
  match r.extra with
  | some d => dictMerge withStack d
  | none => withStack

/-- The fallback record built in the `except` arm of
`NDJsonFormatter.format` (formatter.py lines 33-40): timestamp, level,
the fixed message and the serialization error description. -/
def format_fallback (r : LogRecord) (e : String) : PyDict :=
  [("ts", PyVal.vstr r.asctime),
   ("lvl", PyVal.vstr r.levelname),
   ("msg", PyVal.vstr "Log serialization error"),
   ("stack_trace", PyVal.vstr e)]

/-- Embedding of `NDJsonFormatter.format` (formatter.py lines 16-40):
serialize the structured record; on `TypeError`/`ValueError` from
`json.dumps`, serialize the minimal fallback record instead.  An
`Except.error` result would correspond to an exception escaping
`format` (which, as proved below, cannot happen on the fallback
path). -/
def NDJsonFormatter.format (r : LogRecord) : Except String String :=
  match json_dumps (PyVal.vdict (create_log_record r)) with
  | Except.ok s => Except.ok s
  | Except.error e => json_dumps (PyVal.vdict (format_fallback r e))

/-- Rendering of an all-string JSON object, used to state what the
fallback line looks like. -/
def serialize_string_dict (entries : List (String × String)) : String :=
  "\x7b" ++
    String.intercalate ", "
      (entries.map (fun p => jsonStr p.1 ++ ": " ++ jsonStr p.2)) ++
  "\x7d"

theorem json_dumps_entries_all_strings (entries : List (String × String)) :
    json_dumps_entries (entries.map (fun p => (p.1, PyVal.vstr p.2))) =
      Except.ok (entries.map (fun p => jsonStr p.1 ++ ": " ++ jsonStr p.2)) := by
  induction entries with
  | nil => rfl
  | cons p rest ih =>
    obtain ⟨k, v⟩ := p
    simp only [List.map_cons, json_dumps_entries, json_dumps, ih]

theorem json_dumps_string_dict (entries : List (String × String)) :
    json_dumps (PyVal.vdict (entries.map (fun p => (p.1, PyVal.vstr p.2)))) =
      Except.ok (serialize_string_dict entries) := by
  rw [json_dumps, json_dumps_entries_all_strings]
  rfl

/-- Claim C4 names the failing input: a CRITICAL record with captured
exception info.  The code attaches `stack_trace` only for levelname
`ERROR` (or the impossible levelname `EXCEPTION`), so the CRITICAL
record's payload has no `stack_trace` field even though exception
info was captured — while the same record at ERROR does get one. -/
def criticalExcRecord : LogRecord :=
  { levelname := "CRITICAL"
    message := "fatal"
    moduleName := "m"
    funcName := "f"
    lineno := 7
    pathname := "src/app.py"
    asctime := "2026-01-01 00:00:00"
    excText := some "Traceback (most recent call last): boom"
    extra := none }

/-- Claim C4 (code bug): the CRITICAL record with exception info gets
no `stack_trace` field from `_create_log_record`, although the `ERROR`
record differing only in level does; the five-level model cannot even
produce the levelname `EXCEPTION` the code tests for
(`from_string "EXCEPTION"` would raise and no member renders to it),
so the code's condition is `levelname == "ERROR"` in effect. -/
theorem c4_critical_exception_lacks_stack_trace :
    (criticalExcRecord.levelname = "CRITICAL" ∧
      criticalExcRecord.excText.isSome = true) ∧
    dictGet (create_log_record criticalExcRecord) "stack_trace" = none ∧
    dictGet (create_log_record { criticalExcRecord with levelname := "ERROR" })
        "stack_trace" =
      some (PyVal.vstr "Traceback (most recent call last): boom") ∧
    (∀ x : LogLevel, LogLevel.memberName x ≠ "EXCEPTION") := by
  refine ⟨⟨rfl, rfl⟩, rfl, rfl, ?_⟩
  intro x
  cases x <;> decide

/-- Claim C5: whenever serialization of the structured payload fails
(`json.dumps` raises on some value), `format` does not raise: it
returns the serialization of the minimal fallback record — timestamp,
level, the fixed message "Log serialization error" and the error
description — so the event still produces an output line. -/
theorem c5_serialization_failure_falls_back
    (r : LogRecord) (e : String)
    (h : json_dumps (PyVal.vdict (create_log_record r)) = Except.error e) :
    NDJsonFormatter.format r =
      Except.ok (serialize_string_dict
        [("ts", r.asctime),
         ("lvl", r.levelname),
         ("msg", "Log serialization error"),
         ("stack_trace", e)]) := by
  simp only [NDJsonFormatter.format, h]
  have hfb :
      format_fallback r e =
        List.map (fun p => (p.1, PyVal.vstr p.2))
          [("ts", r.asctime),
           ("lvl", r.levelname),
           ("msg", "Log serialization error"),
           ("stack_trace", e)] := rfl
  rw [hfb, json_dumps_string_dict]

/-- A record whose `extra` mapping carries a non-serializable object
(e.g. a socket), so `json.dumps` raises `TypeError` on the payload. -/
def badPayloadRecord : LogRecord :=
  { levelname := "INFO"
    message := "step done"
    moduleName := "m"
    funcName := "f"
    lineno := 3
    pathname := "src/app.py"
    asctime := "2026-01-01 00:00:01"
    excText := none
    extra := some [("sock", PyVal.vobj "socket")] }

/-- Witness for C5 at the concrete non-serializable payload. -/
theorem c5_witness :
    NDJsonFormatter.format badPayloadRecord =
      Except.ok (serialize_string_dict
        [("ts", "2026-01-01 00:00:01"),
         ("lvl", "INFO"),
         ("msg", "Log serialization error"),
         ("stack_trace", "Object of type socket is not JSON serializable")]) :=
  c5_serialization_failure_falls_back badPayloadRecord
    "Object of type socket is not JSON serializable" rfl

/-- Python `x or dflt` on an `Optional` level argument: `None` and
falsy values (the empty string, the integer 0) select the default. -/
def pyOrLevel (x : Option PyLevel) (dflt : PyLevel) : PyLevel :=
  match x with
  | none => dflt
  | some (PyLevel.str s) => if s = "" then dflt else PyLevel.str s
  | some (PyLevel.int n) => if n = 0 then dflt else PyLevel.int n
  | some v => v

/-- Python `x or dflt` on an `Optional[str]`: `None` and the empty
string select the default. -/
def pyOrStr (x : Option String) (dflt : String) : String :=
  match x with
  | none => dflt
  | some s => if s = "" then dflt else s

/-- Embedding of `LoggerHandler._validate_log_level` (setup.py lines
596-606): like the manager's validation but converted down to the
stdlib numeric code. -/
def handler_validate_level (level : PyLevel) : Except String Int :=
  match validate_log_level level with
  | Except.error e => Except.error e
  | Except.ok l => Except.ok l.to_logging_level

/-- The Python check `x is not None and (not isinstance(x, int) or
x <= 0)` over the annotated domain `Optional[int]`. -/
def optNonPositive (x : Option Int) : Bool :=
  match x with
  | none => false
  | some n => n ≤ 0

/-- Constructor arguments of `LoggerHandler.__init__` (setup.py lines
433-443), after binding: every parameter of the signature.  The
Python signature defaults are `"./logs"`, `150*1024*1024`, `3`,
`LogLevel.INFO`, `LogLevel.DEBUG` and `None` for the three format
strings. -/
structure HandlerConfig where
  folder_path : String
  max_file_size : Option Int
  backup_count : Option Int
  console_level : Option PyLevel
  file_level : Option PyLevel
  console_message_format : Option String
  console_date_format : Option String
  file_date_format : Option String
  deriving DecidableEq, Repr

/-- A constructed `LoggerHandler` instance: the attributes
`__init__` assigns.  The `logging_enabled` environment probe and the
fallback-logger wiring are process I/O with no bearing on the claims
and are left out; `_validate_logging_folder` stores the path (its
`mkdir` is filesystem I/O). -/
structure LoggerHandlerObj where
  log_dir : String
  max_size : Int
  backup_count : Int
  console_level : Int
  file_level : Int
  console_msg_fmt : String
  console_date_fmt : String
  file_date_fmt : String
  handlers_added : Bool
  deriving DecidableEq, Repr

/-- Embedding of `LoggerHandler.__init__` (setup.py lines 433-508):
`max_file_size` and `backup_count`, when given, must be positive or
`ValueError` is raised; when `None`, the code substitutes
`500*1024*1024` (= 524288000) and `3` respectively — note the
docstring documents the `max_file_size` default as 157286400; the two
levels go through `x or default` and validation; the format strings
fall back to the class defaults. -/
def LoggerHandler.init (cfg : HandlerConfig) : Except String LoggerHandlerObj :=
  if optNonPositive cfg.max_file_size then
    Except.error "max_file_size must be a positive integer."
  else if optNonPositive cfg.backup_count then
    Except.error "backup_count must be a positive integer."
  else
    match handler_validate_level
        (pyOrLevel cfg.console_level (PyLevel.lvl LogLevel.info)) with
    | Except.error e => Except.error e
    | Except.ok cl =>
      match handler_validate_level
          (pyOrLevel cfg.file_level (PyLevel.lvl LogLevel.debug)) with
      | Except.error e => Except.error e
      | Except.ok fl =>
        Except.ok
          { log_dir := cfg.folder_path
            max_size := cfg.max_file_size.getD 524288000
            backup_count := cfg.backup_count.getD 3
            console_level := cl
            file_level := fl
            console_msg_fmt := pyOrStr cfg.console_message_format
              "%(asctime)s | %(levelname)s - %(lineno)d : %(message)s"
            console_date_fmt := pyOrStr cfg.console_date_format "%Y-%m-%d %H:%M:%S"
            file_date_fmt := pyOrStr cfg.file_date_format "%Y-%m-%d %H:%M:%S"
            handlers_added := false }

/-- The `Singleton` metaclass registry `_instances` (setup.py lines
336-382).  The Python key is `(cls, frozenset(bound_arguments))` after
`apply_defaults` and `make_hashable`; two structurally equal argument
records always bind to the same mapping and hence the same key, so
the embedding uses the bound-argument record itself as the key
(`make_hashable` can only conflate *more* configurations — via the
`repr` fallback — never separate equal ones).  Each created instance
is tagged with an allocation counter: equal tags model Python object
identity (`is`). -/
structure Registry where
  instances : List (HandlerConfig × Nat)
  next_id : Nat
  deriving DecidableEq, Repr

/-- Lookup of a key in the `_instances` mapping. -/
def regLookup : List (HandlerConfig × Nat) → HandlerConfig → Option Nat
  | [], _ => none
  | (k', id) :: rest, k => if k' = k then some id else regLookup rest k

/-- Embedding of `Singleton.__call__` applied to `LoggerHandler`
(setup.py lines 348-382): under the class lock, compute the key from
the call's arguments; if present, return the stored instance (the
arguments play no further role); otherwise run `__init__` — if it
raises, the exception propagates and `_instances` is left untouched —
and store the fresh instance under the key. -/
def singleton_call (r : Registry) (cfg : HandlerConfig) : Except String Nat × Registry :=
  match regLookup r.instances cfg with
  | some id => (Except.ok id, r)
  | none =>
    match LoggerHandler.init cfg with
    | Except.error e => (Except.error e, r)
    | Except.ok _obj =>
      (Except.ok r.next_id,
       { instances := r.instances ++ [(cfg, r.next_id)], next_id := r.next_id + 1 })

theorem regLookup_append_left (l1 l2 : List (HandlerConfig × Nat))
    (k : HandlerConfig) (v : Nat) (h : regLookup l1 k = some v) :
    regLookup (l1 ++ l2) k = some v := by
  induction l1 with
  | nil => simp [regLookup] at h
  | cons p rest ih =>
    obtain ⟨k', id'⟩ := p
    by_cases hk : k' = k
    · simpa [regLookup, hk] using h
    · rw [List.cons_append, regLookup, if_neg hk]
      rw [regLookup, if_neg hk] at h
      exact ih h

theorem regLookup_append_new (l : List (HandlerConfig × Nat))
    (k : HandlerConfig) (v : Nat) (h : regLookup l k = none) :
    regLookup (l ++ [(k, v)]) k = some v := by
  induction l with
  | nil => simp [regLookup]
  | cons p rest ih =>
    obtain ⟨k', id'⟩ := p
    by_cases hk : k' = k
    · rw [regLookup, if_pos hk] at h
      cases h
    · rw [regLookup, if_neg hk] at h
      rw [List.cons_append, regLookup, if_neg hk]
      exact ih h

/-- Claim C2: a `LoggerHandler(...)` call that returned an instance
for a configuration leaves the registry so that calling again with a
structurally equal configuration returns the *identical* instance
(same allocation tag) without touching the registry — the second
call's arguments only select the key, its `__init__` never runs — and
no call ever replaces an existing registry entry (`Singleton.__call__`
has no fresh-instance path, so the spec's "only an explicit fresh
request replaces the entry" holds vacuously: entries are never
replaced at all). -/
theorem c2_singleton_memoization
    (r r1 : Registry) (cfg : HandlerConfig) (id : Nat)
    (h : singleton_call r cfg = (Except.ok id, r1))
    (r2 : Registry) (cfg2 k : HandlerConfig) (v : Nat) :
    singleton_call r1 cfg = (Except.ok id, r1) ∧
    (regLookup r2.instances k = some v →
      regLookup ((singleton_call r2 cfg2).2).instances k = some v) := by
  constructor
  · unfold singleton_call at h ⊢
    cases hl : regLookup r.instances cfg with
    | some id0 =>
      rw [hl] at h
      cases h
      rw [hl]
    | none =>
      rw [hl] at h
      cases hi : LoggerHandler.init cfg with
      | error e => rw [hi] at h; cases h
      | ok obj =>
        rw [hi] at h
        cases h
        rw [regLookup_append_new r.instances cfg r.next_id hl]
  · intro hk
    unfold singleton_call
    cases hl : regLookup r2.instances cfg2 with
    | some id0 => exact hk
    | none =>
      cases hi : LoggerHandler.init cfg2 with
      | error e => exact hk
      | ok obj => exact regLookup_append_left r2.instances [(cfg2, r2.next_id)] k v hk

/-- The bound arguments of a `LoggerHandler()` call made with the
signature defaults. -/
def handlerCfg0 : HandlerConfig :=
  { folder_path := "./logs"
    max_file_size := some 157286400
    backup_count := some 3
    console_level := some (PyLevel.lvl LogLevel.info)
    file_level := some (PyLevel.lvl LogLevel.debug)
    console_message_format := none
    console_date_format := none
    file_date_format := none }

/-- The empty `Singleton._instances` registry at process start. -/
def registry0 : Registry := { instances := [], next_id := 0 }

/-- The registry after the first `LoggerHandler()` call. -/
def registry1 : Registry := { instances := [(handlerCfg0, 0)], next_id := 1 }

/-- A second, structurally different configuration. -/
def handlerCfg1 : HandlerConfig := { handlerCfg0 with folder_path := "./other" }

/-- Witness for C2: the first call on the empty registry creates
instance 0; re-calling with the structurally equal configuration
returns instance 0 and leaves the registry unchanged, and a call with
a different configuration preserves the stored entry. -/
theorem c2_witness :
    singleton_call registry1 handlerCfg0 = (Except.ok 0, registry1) ∧
    regLookup ((singleton_call registry1 handlerCfg1).2).instances handlerCfg0 = some 0 := by
  have h := c2_singleton_memoization registry0 registry1 handlerCfg0 0 rfl
    registry1 handlerCfg1 handlerCfg0 0
  exact ⟨h.1, h.2 rfl⟩

/-- Claim C10 (code bug): both constructors raise `ValueError` on
non-positive size parameters and the failing `LoggerHandler`
construction registers nothing; passing `None` does not fail and
selects `3` for `backup_count` — but for `max_file_size` the code
substitutes 524288000 (500 MiB), not the documented default 157286400
(150 MiB) of its signature and docstring. -/
theorem c10_size_validation_and_none_divergence :
    (LoggerManager.init { manager0Cfg with max_file_size := 0 } =
      Except.error "max_file_size must be a positive integer.") ∧
    (LoggerManager.init { manager0Cfg with max_file_size := -7 } =
      Except.error "max_file_size must be a positive integer.") ∧
    (LoggerHandler.init { handlerCfg0 with max_file_size := some 0 } =
      Except.error "max_file_size must be a positive integer.") ∧
    (LoggerHandler.init { handlerCfg0 with backup_count := some (-2) } =
      Except.error "backup_count must be a positive integer.") ∧
    (singleton_call registry0 { handlerCfg0 with backup_count := some 0 } =
      (Except.error "backup_count must be a positive integer.", registry0)) ∧
    ((LoggerHandler.init { handlerCfg0 with backup_count := none }).map
        (fun o => o.backup_count) = Except.ok 3) ∧
    ((LoggerHandler.init { handlerCfg0 with max_file_size := none }).map
        (fun o => o.max_size) = Except.ok 524288000) ∧
    ((524288000 : Int) ≠ 157286400) := by
  refine ⟨rfl, rfl, rfl, rfl, rfl, rfl, rfl, by decide⟩

end DocAtlas
